import Mathlib

/-!
Verification of the orchestra scripts.

Shallow embedding of the two scripts of the repository:

* `scripts/eso_retrieve.py` — the batch retrieval pipeline: batch
  partitioning (`numBatches`, `batchSlices`), the checkpoint overwrite
  guard and per-batch submission loop (`retrieveRun`, `runLoop`), the
  completion-poller classification (`pollClassify`), and the per-batch
  snapshot writes (`afterRequestNumberParsed`, `afterPathsExtracted`).

* `scripts/measure_shk.py` — the measurement pipeline: the per-file
  measurement with RV lookup (`measure_stellar_activity`), the
  reconnect-on-database-failure worker loop (`runWorker`), and the
  already-processed filter (`alreadyProcessedFilter`).

Machine floats are abstracted by `FVal` (a finite rational or one of the
non-finite IEEE values); the only operation the scripts perform on a raw
float that affects control flow is `np.isfinite`, modelled by
`FVal.isFinite`.  External effects (HTTP responses, database rows, the
`shk_index` routine) are parameters of the definitions.
-/

namespace Orchestra

/-- Abstraction of an IEEE floating-point value as read from the database
or produced by numpy: a finite rational or one of the non-finite values.
`np.isfinite` is `FVal.isFinite`. -/
inductive FVal where
  | finite (q : ℚ)
  | nan
  | posInf
  | negInf
  deriving DecidableEq

/-- The `np.isfinite` predicate: true exactly on finite values. -/
def FVal.isFinite : FVal → Bool
  | .finite _ => true
  | _ => false

/-! ## Batch partitioning (`eso_retrieve.py`, lines 55-56 and 72)

`N = len(records)`, `I = N / BATCH + (1 if N % BATCH else 0)` (Python 2
integer division), and batch `i` is the slice
`records[i*BATCH:(i + 1)*BATCH]`. -/

/-- Line 56: `I = N / BATCH + (1 if N % BATCH else 0)`, integer division. -/
def numBatches (N BATCH : Nat) : Nat :=
  N / BATCH + (if N % BATCH ≠ 0 then 1 else 0)

/-- The slice `records[i*BATCH:(i + 1)*BATCH]`. -/
def batchSlice (records : List α) (BATCH i : Nat) : List α :=
  (records.drop (i * BATCH)).take BATCH

/-- All batches, in loop order `i = 0 .. I - 1`. -/
def batchSlices (records : List α) (BATCH : Nat) : List (List α) :=
  (List.range (numBatches records.length BATCH)).map (batchSlice records BATCH)

/-! ## Completion poller (`eso_retrieve.py`, lines 119-139)

One iteration of the `while True` polling loop: the page either has the
`id="requestState"` span (with some text) or not.  If the span is absent
the loop prints a diagnostic that includes whether `str(request_number)`
occurs in the response body, sleeps `WAIT_TIME`, and continues; if the
span text differs from `"COMPLETE"` it sleeps and continues; only the
exact text `"COMPLETE"` breaks the loop. -/

/-- A status page: the text of the `id="requestState"` element when
present, and the raw response body. -/
structure StatusPage where
  requestState : Option String
  body : String

/-- Observable behaviour of one polling-loop iteration. -/
structure PollStep where
  terminal : Bool
  sleeps : Bool
  /-- In the absent-span branch, the diagnostic records whether the
  request number occurs anywhere in the response body (`LISTED` /
  `NOT LISTED`); `none` when that branch is not taken. -/
  loggedListed : Option Bool
  deriving DecidableEq

/-- One iteration of the polling loop, lines 119-139. -/
def pollClassify (request_number : Nat) (page : StatusPage) : PollStep :=
  match page.requestState with
  | none =>
      { terminal := false, sleeps := true,
        loggedListed :=
          some (decide (1 < (page.body.splitOn (toString request_number)).length)) }
  | some s =>
      if s ≠ "COMPLETE" then
        { terminal := false, sleeps := true, loggedListed := none }
      else
        { terminal := true, sleeps := false, loggedListed := none }

/-! ## Per-file measurement (`measure_shk.py`, lines 42-107)

`measure_stellar_activity` opens the FITS file, builds the wavelength
grid `np.arange(naxis) * cdelt + crval`, looks up the radial velocity
for `date_obs`, and then: no row → return without any insert; non-finite
rv → record `(np.nan, np.nan)` without calling `shk_index`; otherwise
call `shk_index` and record its result.  In every non-skipped case the
`INSERT ... ON CONFLICT DO NOTHING` is attempted. -/

/-- The FITS header fields read by the script. -/
structure FitsHeader where
  naxis : Nat
  crval : ℚ
  cdelt : ℚ
  date_obs : String
  object_name : String
  deriving DecidableEq

/-- Observable outcome of `measure_stellar_activity` for one file:
the row of the attempted conflict-tolerant insert
`(date_obs, filename, s_hk, e_s_hk)` (or `none` when the file is skipped
before any insert), and whether the external `shk_index` routine was
invoked. -/
structure MeasureResult where
  insertAttempt : Option (String × String × FVal × FVal)
  calledShkIndex : Bool
  deriving DecidableEq

/-- Line 60: `wavelength = np.arange(naxis) * cdelt + crval`. -/
def wavelengthGrid (naxis : Nat) (crval cdelt : ℚ) : List ℚ :=
  (List.range naxis).map (fun i => (i : ℚ) * cdelt + crval)

/-- The function `measure_stellar_activity` of lines 42-107.
Here `shk_index` is the external numerical routine and `rvLookup` the
result of the `SELECT drs_ccf_rvc FROM obs WHERE date_obs = ...` query
(`none` when `cursor.rowcount < 1`). -/
def measure_stellar_activity
    (shk_index : List ℚ → List ℚ → FVal → FVal × FVal)
    (hdr : FitsHeader) (flux : List ℚ) (basename : String)
    (rvLookup : Option FVal) : MeasureResult :=
  let wavelength := wavelengthGrid hdr.naxis hdr.crval hdr.cdelt
  match rvLookup with
  | none => { insertAttempt := none, calledShkIndex := false }
  | some rv =>
      if !rv.isFinite then
        { insertAttempt := some (hdr.date_obs, basename, FVal.nan, FVal.nan),
          calledShkIndex := false }
      else
        let se := shk_index wavelength flux rv
        { insertAttempt := some (hdr.date_obs, basename, se.1, se.2),
          calledShkIndex := true }

/-! ## Reconnect worker loop (`measure_shk.py`, lines 110-139)

`measure_stellar_activity_wrapper`: `n, N = 0, len(filenames)`; while
`N > n`, try to process file `n`; on `pg.DatabaseError` close the failed
connection, open a fresh one (connection counter `c` increments) and
retry the same `n`; otherwise `n += 1`.  `sched k a` tells whether
attempt `a` at file index `k` succeeds (i.e. does not raise a
database-level error); `acc` records the successfully processed indices
in order.  `fuel` bounds the number of loop iterations (the Python loop
is unbounded; termination is the content of the theorem). -/

def runWorker (sched : Nat → Nat → Bool) (N : Nat) :
    Nat → Nat → Nat → Nat → List Nat → List Nat × Nat × Nat
  | 0, n, _a, c, acc => (acc, n, c)
  | fuel + 1, n, a, c, acc =>
      if N > n then
        if sched n a then runWorker sched N fuel (n + 1) 0 c (acc ++ [n])
        else runWorker sched N fuel n (a + 1) (c + 1) acc
      else (acc, n, c)

/-! ## Already-processed filter (`measure_shk.py`, lines 143-159)

`filenames = list(set(filenames).difference(measured_filenames))` where
`measured_filenames` is the list of expected local paths reconstructed
from the ingested filenames returned by `SELECT filename FROM obs`. -/

/-- The post-filter work list as a set:
`set(filenames).difference([reconstruct(f) for f in ingested])`. -/
def alreadyProcessedFilter (filenames ingested : List String)
    (reconstruct : String → String) : Finset String :=
  filenames.toFinset \ (ingested.map reconstruct).toFinset

/-! ## Retrieval pipeline (`eso_retrieve.py`, lines 58-155)

The pipeline checks the checkpoint guard
(`assert not os.path.exists(request_numbers_path) and not
os.path.exists(remote_paths_path)`) and then iterates
`for i in range(I)`, skipping `i < SKIP`.  For a processed batch it
POSTs to the `confirmation` endpoint (`prepare_response`), asserts
`.ok`, POSTs to the `submission` endpoint (`confirmation_response`),
asserts `.ok`, parses the `Request #<integer>` token
(`re.findall(...)[0]`, an uncaught IndexError when absent), appends it
to `request_numbers` and dumps that whole list to the request-number
snapshot file.  The next statement formats the name `request_number`,
which is assigned nowhere in the script (`request_number_binding`), so
a NameError is raised there and the poller, the path extraction and the
remote-path snapshot write are never reached. -/

inductive RunError where
  | checkpointExists
  | prepareFailed (i : Nat)
  | confirmationFailed (i : Nat)
  | parseFailed (i : Nat)
  | unboundRequestNumber (i : Nat)
  deriving DecidableEq

/-- External outcomes for batch `i`: whether the two POSTs return a
success status, the `Request #<integer>` token scanned from the
submission response body (`none` when the pattern does not match), and
the paths the download script for this batch would list. -/
structure BatchEnv where
  prepare_ok : Bool
  confirmation_ok : Bool
  parsedRequestNumber : Option Nat
  extractedPaths : List String

/-- Observable trace of one run of the retrieval pipeline. -/
structure RunResult where
  error : Option RunError
  /-- Batch indices POSTed to the `rh/confirmation` endpoint. -/
  confirmationPosts : List Nat
  /-- Batch indices POSTed to the `rh/requests/<user>/submission` endpoint. -/
  submissionPosts : List Nat
  request_numbers : List Nat
  remote_paths : List String
  /-- Successive full contents written to the request-number snapshot file. -/
  rnFileWrites : List (List Nat)
  /-- Successive full contents written to the remote-path snapshot file. -/
  rpFileWrites : List (List String)
  pollerReached : Bool
  deriving DecidableEq

def initResult : RunResult :=
  { error := none, confirmationPosts := [], submissionPosts := [],
    request_numbers := [], remote_paths := [], rnFileWrites := [],
    rpFileWrites := [], pollerReached := false }

/-- The value bound to the name `request_number` in the script: it is
assigned nowhere (the parsed integer is only appended to the list
`request_numbers`), so the lookup at line 111-112 finds no binding. -/
def request_number_binding : Option Nat := none

/-- The `for i in range(I)` loop of lines 64-155, over the remaining
batch indices.  Aborted runs (failed assert, uncaught IndexError,
NameError) return without recursing into the remaining indices. -/
def runLoop (env : Nat → BatchEnv) (SKIP : Nat) :
    List Nat → RunResult → RunResult
  | [], res => res
  | i :: rest, res =>
      if i < SKIP then runLoop env SKIP rest res
      else
        let b := env i
        let res1 := { res with confirmationPosts := res.confirmationPosts ++ [i] }
        if !b.prepare_ok then { res1 with error := some (.prepareFailed i) }
        else
          let res2 := { res1 with submissionPosts := res1.submissionPosts ++ [i] }
          if !b.confirmation_ok then { res2 with error := some (.confirmationFailed i) }
          else
            match b.parsedRequestNumber with
            | none => { res2 with error := some (.parseFailed i) }
            | some rn =>
                let rns := res2.request_numbers ++ [rn]
                let res3 := { res2 with request_numbers := rns,
                                        rnFileWrites := res2.rnFileWrites ++ [rns] }
                match request_number_binding with
                | none => { res3 with error := some (.unboundRequestNumber i) }
                | some _ =>
                    let rps := res3.remote_paths ++ b.extractedPaths
                    let res4 := { res3 with pollerReached := true,
                                            remote_paths := rps,
                                            rpFileWrites := res3.rpFileWrites ++ [rps] }
                    runLoop env SKIP rest res4

/-- The whole pipeline run: the checkpoint guard of lines 58-59
(`e1`, `e2`: whether the request-number and remote-path snapshot files
already exist), then the batch loop over `range I`. -/
def retrieveRun (e1 e2 : Bool) (env : Nat → BatchEnv)
    (N SKIP BATCH : Nat) : RunResult :=
  if e1 || e2 then { initResult with error := some .checkpointExists }
  else runLoop env SKIP (List.range (numBatches N BATCH)) initResult

/-! ## Snapshot writes (`eso_retrieve.py`, lines 96-102 and 144-151)

The two statement groups that update the accumulators and immediately
dump the full accumulated list to the snapshot file. -/

/-- Accumulators and snapshot-file contents inside the batch loop. -/
structure LoopState where
  request_numbers : List Nat
  remote_paths : List String
  /-- Contents of `eso_retrieve_request_numbers.pkl`, if ever written. -/
  rnFile : Option (List Nat)
  /-- Contents of `eso_retrieve_paths.pkl`, if ever written. -/
  rpFile : Option (List String)

/-- Lines 98-102: `request_numbers.append(...)` then
`pickle.dump(request_numbers, fp, -1)` — the whole list overwrites the
previous snapshot. -/
def afterRequestNumberParsed (s : LoopState) (rn : Nat) : LoopState :=
  let rns := s.request_numbers ++ [rn]
  { s with request_numbers := rns, rnFile := some rns }

/-- Lines 147-151: `remote_paths.extend(paths)` then
`pickle.dump(remote_paths, fp, -1)` — the whole list overwrites the
previous snapshot. -/
def afterPathsExtracted (s : LoopState) (paths : List String) : LoopState :=
  let rps := s.remote_paths ++ paths
  { s with remote_paths := rps, rpFile := some rps }

/-! # Theorems -/

/-- C2: the completion poller treats a page as terminal iff the state
element is present with text exactly `"COMPLETE"`; in every other case
(different text, or absent element) it sleeps the wait interval and
continues — and in the absent-element case the logged diagnostic records
whether the request number occurs in the response body. -/
theorem poll_classification (request_number : Nat) (page : StatusPage) :
    ((pollClassify request_number page).terminal = true ↔
      page.requestState = some ("COMPLETE")) ∧
    (pollClassify request_number page).sleeps =
      !(pollClassify request_number page).terminal ∧
    (page.requestState = none →
      (pollClassify request_number page).loggedListed =
        some (decide (1 < (page.body.splitOn (toString request_number)).length))) := by
  obtain ⟨st, body⟩ := page
  match st with
  | none => simp [pollClassify]
  | some s =>
      by_cases h : s = "COMPLETE" <;> simp [pollClassify, h]

theorem poll_classification_witness :
    (pollClassify 7 ⟨none, ("No request listed")⟩).loggedListed =
      some (decide (1 < ((("No request listed") : String).splitOn
        (toString 7)).length)) :=
  (poll_classification 7 ⟨none, ("No request listed")⟩).2.2 rfl

/-- C4: when the looked-up radial velocity exists but is non-finite, the
measurement records an insert row whose index and uncertainty are both
the NaN sentinel, and the external `shk_index` routine is never called. -/
theorem nonfinite_rv_handling
    (shk_index : List ℚ → List ℚ → FVal → FVal × FVal)
    (hdr : FitsHeader) (flux : List ℚ) (basename : String) (rv : FVal)
    (h : rv.isFinite = false) :
    measure_stellar_activity shk_index hdr flux basename (some rv) =
      { insertAttempt := some (hdr.date_obs, basename, FVal.nan, FVal.nan),
        calledShkIndex := false } := by
  simp [measure_stellar_activity, h]

theorem nonfinite_rv_handling_witness :
    FVal.isFinite FVal.nan = false ∧
    measure_stellar_activity (fun _ _ _ => (FVal.finite 0, FVal.finite 0))
        ⟨3, 0, 1, "2017-01-01", "HD1"⟩ [] ("f_s1d_A.fits") (some FVal.nan) =
      { insertAttempt := some ("2017-01-01", "f_s1d_A.fits", FVal.nan, FVal.nan),
        calledShkIndex := false } :=
  ⟨rfl, nonfinite_rv_handling _ _ _ _ _ rfl⟩

/-- C5: an insert is attempted for a processed file exactly when the RV
reference row exists; the only no-insert outcome is the missing-row
skip. -/
theorem insert_always_attempted
    (shk_index : List ℚ → List ℚ → FVal → FVal × FVal)
    (hdr : FitsHeader) (flux : List ℚ) (basename : String)
    (rvLookup : Option FVal) :
    (measure_stellar_activity shk_index hdr flux basename
        rvLookup).insertAttempt.isSome = rvLookup.isSome := by
  match rvLookup with
  | none => rfl
  | some rv =>
      by_cases h : rv.isFinite <;> simp [measure_stellar_activity, h]

/-- C7: the post-filter work list is the candidate set minus the
reconstructed expected paths of the ingested filenames, and its size
never exceeds the original candidate count. -/
theorem already_processed_filter (filenames ingested : List String)
    (reconstruct : String → String) :
    alreadyProcessedFilter filenames ingested reconstruct =
      filenames.toFinset \ (ingested.map reconstruct).toFinset ∧
    (alreadyProcessedFilter filenames ingested reconstruct).card ≤
      filenames.length :=
  ⟨rfl, le_trans (Finset.card_le_card Finset.sdiff_subset)
    (List.toFinset_card_le filenames)⟩

/-- C9: immediately after a batch's request number is parsed the
request-number snapshot file holds the full accumulated list (previous
numbers plus the new one), and immediately after a batch's path list is
extracted the path snapshot file holds the full accumulated path list —
each write overwrites the previous snapshot with the complete list,
whatever it contained before. -/
theorem snapshot_holds_full_accumulated_list
    (s : LoopState) (rn : Nat) (paths : List String) :
    (afterRequestNumberParsed s rn).rnFile =
        some ((afterRequestNumberParsed s rn).request_numbers) ∧
    (afterRequestNumberParsed s rn).request_numbers =
        s.request_numbers ++ [rn] ∧
    (afterPathsExtracted s paths).rpFile =
        some ((afterPathsExtracted s paths).remote_paths) ∧
    (afterPathsExtracted s paths).remote_paths = s.remote_paths ++ paths :=
  ⟨rfl, rfl, rfl, rfl⟩

/-- The batch count formula of line 56 is the ceiling of `N / B`. -/
theorem numBatches_eq_ceil (N B : Nat) (hB : 0 < B) :
    numBatches N B = (N + B - 1) / B := by
  unfold numBatches
  rcases Nat.eq_zero_or_pos N with rfl | hN
  · rw [Nat.zero_div, Nat.zero_mod, if_neg (by simp), Nat.zero_add,
      Nat.div_eq_of_lt (by omega)]
  · have h1 : N + B - 1 = (N - 1) + B := by omega
    have h2 : N = (N - 1) + 1 := by omega
    have h3 : N / B = (N - 1) / B + if B ∣ N then 1 else 0 := by
      conv_lhs => rw [h2]
      rw [Nat.succ_div, ← h2]
    rw [h1, Nat.add_div_right _ hB, h3]
    by_cases hd : B ∣ N
    · rw [if_pos hd, if_neg (by
        have := Nat.mod_eq_zero_of_dvd hd
        simp [this])]
    · rw [if_neg hd, if_pos (by
        intro hm
        exact hd (Nat.dvd_of_mod_eq_zero hm))]

/-- Peeling one batch off the front: for a nonempty identifier list the
batch count is one more than the batch count of what remains after the
first `B` identifiers. -/
theorem numBatches_succ (N B : Nat) (hB : 0 < B) (hN : 0 < N) :
    numBatches N B = numBatches (N - B) B + 1 := by
  rw [numBatches_eq_ceil _ _ hB, numBatches_eq_ceil _ _ hB]
  rcases le_or_lt N B with h | h
  · rw [Nat.sub_eq_zero_of_le h]
    have h1 : N + B - 1 = (N - 1) + B := by omega
    rw [h1, Nat.add_div_right _ hB, Nat.div_eq_of_lt (by omega),
      Nat.div_eq_of_lt (by omega)]
  · have h1 : N + B - 1 = ((N - B) + B - 1) + B := by omega
    rw [h1, Nat.add_div_right _ hB]

/-- The concatenation of the slices `records[i*B:(i+1)*B]` for
`i = 0 .. I - 1` is the original list. -/
theorem join_batchSlices (B : Nat) (hB : 0 < B) :
    ∀ (k : Nat) (l : List α), numBatches l.length B = k →
      (batchSlices l B).flatten = l := by
  intro k
  induction k with
  | zero =>
      intro l hl
      have h0 : l.length = 0 := by
        by_cases hm : l.length % B = 0
        · have hq : l.length / B = 0 := by
            unfold numBatches at hl
            rw [if_neg (by simp [hm])] at hl
            omega
          have hd := Nat.div_add_mod l.length B
          rw [hq, hm] at hd
          simpa using hd.symm
        · unfold numBatches at hl
          rw [if_pos hm] at hl
          exact absurd hl (Nat.succ_ne_zero _)
      rw [List.length_eq_zero.mp h0]
      simp [batchSlices, numBatches]
  | succ k ih =>
      intro l hl
      have hlen : 0 < l.length := by
        by_contra hc
        have h0 : l.length = 0 := by omega
        rw [h0] at hl
        simp [numBatches] at hl
      have hstep := numBatches_succ l.length B hB hlen
      rw [hl] at hstep
      have hk : numBatches (l.length - B) B = k := by omega
      have hmain := ih (l.drop B) (by rw [List.length_drop]; exact hk)
      have hslice : (batchSlice l B ∘ Nat.succ) = batchSlice (l.drop B) B := by
        funext i
        show batchSlice l B (i + 1) = batchSlice (l.drop B) B i
        unfold batchSlice
        rw [List.drop_drop]
        congr 2
        ring
      unfold batchSlices
      rw [hl, List.range_succ_eq_map, List.map_cons, List.flatten_cons,
        List.map_map, hslice]
      unfold batchSlices at hmain
      rw [List.length_drop, hk] at hmain
      rw [hmain]
      have h00 : batchSlice l B 0 = l.take B := by
        simp [batchSlice]
      rw [h00, List.take_append_drop]

/-- C1: for every batch size `B > 0` the pipeline computes
`I = N / B + (1 if N % B else 0) = ceil(N / B)` batches, and the
contiguous slices `records[i*B:(i+1)*B]` for `i = 0 .. I - 1`
concatenate back to the original list — every identifier lies in exactly
one batch, in the original order. -/
theorem batch_partitioning (α : Type) (records : List α) (B : Nat)
    (hB : 0 < B) :
    numBatches records.length B = (records.length + B - 1) / B ∧
    (batchSlices records B).flatten = records :=
  ⟨numBatches_eq_ceil _ _ hB, join_batchSlices B hB _ records rfl⟩

theorem batch_partitioning_witness :
    0 < 2 ∧
    (numBatches (List.length ([10, 20, 30, 40, 50] : List Nat)) 2 =
        (List.length ([10, 20, 30, 40, 50] : List Nat) + 2 - 1) / 2 ∧
      (batchSlices ([10, 20, 30, 40, 50] : List Nat) 2).flatten =
        [10, 20, 30, 40, 50]) :=
  ⟨by decide, batch_partitioning Nat [10, 20, 30, 40, 50] 2 (by decide)⟩

/-- The defining step of `runWorker` on positive fuel. -/
theorem runWorker_succ (sched : Nat → Nat → Bool) (N fuel n a c : Nat)
    (acc : List Nat) :
    runWorker sched N (fuel + 1) n a c acc =
      if N > n then
        if sched n a then runWorker sched N fuel (n + 1) 0 c (acc ++ [n])
        else runWorker sched N fuel n (a + 1) (c + 1) acc
      else (acc, n, c) := rfl

/-- Clearing one file: if attempts `a .. a + j - 1` at file `n` raise a
database error and attempt `a + j` succeeds, the loop spends `j + 1`
iterations on file `n`, opens `j` fresh connections, records `n` as
processed, and moves on to file `n + 1` with the attempt counter reset. -/
theorem runWorker_clears (sched : Nat → Nat → Bool) (N : Nat) :
    ∀ (j fuel n a c : Nat) (acc : List Nat), n < N →
      (∀ i, i < j → sched n (a + i) = false) → sched n (a + j) = true →
      runWorker sched N (fuel + (j + 1)) n a c acc =
        runWorker sched N fuel (n + 1) 0 (c + j) (acc ++ [n]) := by
  intro j
  induction j with
  | zero =>
      intro fuel n a c acc hn _ hj
      have hj0 : sched n a = true := by simpa using hj
      show runWorker sched N (fuel + 1) n a c acc = _
      rw [runWorker_succ, if_pos hn, if_pos hj0]
      rfl
  | succ j ih =>
      intro fuel n a c acc hn hmin hj
      show runWorker sched N ((fuel + (j + 1)) + 1) n a c acc = _
      rw [runWorker_succ sched N (fuel + (j + 1)) n a c acc, if_pos hn]
      have h0 : sched n a = false := by
        have := hmin 0 (Nat.succ_pos j)
        simpa using this
      rw [if_neg (by simp [h0])]
      have hmin' : ∀ i, i < j → sched n ((a + 1) + i) = false := by
        intro i hi
        have := hmin (i + 1) (by omega)
        rwa [show a + (i + 1) = a + 1 + i by omega] at this
      have hj' : sched n ((a + 1) + j) = true := by
        rwa [show a + (j + 1) = a + 1 + j by omega] at hj
      rw [ih fuel n (a + 1) (c + 1) acc hn hmin' hj']
      rw [show c + 1 + j = c + (j + 1) by omega]

/-- With every remaining file eventually succeeding, the worker loop
terminates with all remaining indices processed in order. -/
theorem runWorker_completes (sched : Nat → Nat → Bool) (N : Nat)
    (hall : ∀ k, k < N → ∃ a, sched k a = true) :
    ∀ (m n c : Nat) (acc : List Nat), n + m = N →
      ∃ fuel c2, runWorker sched N fuel n 0 c acc =
        (acc ++ List.range' n m, N, c2) := by
  intro m
  induction m with
  | zero =>
      intro n c acc h
      have hn : n = N := by omega
      subst hn
      exact ⟨0, c, by simp [runWorker]⟩
  | succ m ih =>
      intro n c acc h
      have hn : n < N := by omega
      have hex : ∃ a, sched n a = true := hall n hn
      obtain ⟨fuel0, c2, hrun⟩ := ih (n + 1) (c + Nat.find hex) (acc ++ [n])
        (by omega)
      refine ⟨fuel0 + (Nat.find hex + 1), c2, ?_⟩
      have hmin : ∀ i, i < Nat.find hex → sched n (0 + i) = false := by
        intro i hi
        have := Nat.find_min hex hi
        rw [Nat.zero_add]
        simpa using this
      have hj : sched n (0 + Nat.find hex) = true := by
        rw [Nat.zero_add]
        exact Nat.find_spec hex
      rw [runWorker_clears sched N (Nat.find hex) fuel0 n 0 c acc hn hmin hj,
        hrun, List.append_assoc]
      rfl

/-- C3: if processing a file raises a database-level error the worker
retries the same index with a fresh connection, and `n` advances only on
success; assuming each file in the chunk eventually succeeds, the worker
terminates having processed all `N` files in order, skipping none.
`sched k a` says whether attempt `a` at file `k` succeeds; the final
component counts the connections opened beyond the initial one. -/
theorem reconnect_processes_all (sched : Nat → Nat → Bool) (N : Nat)
    (hall : ∀ k, k < N → ∃ a, sched k a = true) :
    ∃ fuel c2, runWorker sched N fuel 0 0 0 [] = (List.range N, N, c2) := by
  obtain ⟨fuel, c2, h⟩ := runWorker_completes sched N hall N 0 0 [] (by omega)
  refine ⟨fuel, c2, ?_⟩
  rw [h, List.nil_append, List.range_eq_range']

theorem reconnect_processes_all_witness :
    (∀ k, k < 2 → ∃ a, (fun _ a => decide (a = 1) : Nat → Nat → Bool) k a
        = true) ∧
    ∃ fuel c2, runWorker (fun _ a => decide (a = 1)) 2 fuel 0 0 0 [] =
      (List.range 2, 2, c2) :=
  ⟨fun _ _ => ⟨1, rfl⟩,
    reconnect_processes_all (fun _ a => decide (a = 1)) 2
      (fun _ _ => ⟨1, rfl⟩)⟩

/-- Skipped batches (`if i < SKIP: continue`) leave the trace unchanged. -/
theorem runLoop_skip_all (env : Nat → BatchEnv) (SKIP : Nat)
    (a b : List Nat) (res : RunResult) (h : ∀ i ∈ a, i < SKIP) :
    runLoop env SKIP (a ++ b) res = runLoop env SKIP b res := by
  induction a with
  | nil => rfl
  | cons x xs ih =>
      rw [List.cons_append]
      have hx : x < SKIP := h x (by simp)
      show runLoop env SKIP (x :: (xs ++ b)) res = _
      simp only [runLoop]
      rw [if_pos hx]
      exact ih (fun i hi => h i (by simp [hi]))

/-- Splitting `range I` at a position `SKIP < I`. -/
theorem range_split_at (SKIP I : Nat) (h : SKIP < I) :
    List.range I =
      List.range SKIP ++ SKIP :: List.range' (SKIP + 1) (I - SKIP - 1) := by
  rw [List.range_eq_range', List.range_eq_range']
  rw [show SKIP :: List.range' (SKIP + 1) (I - SKIP - 1) =
      List.range' SKIP ((I - SKIP - 1) + 1) from (List.range'_succ _ _ _).symm]
  rw [show (I - SKIP - 1) + 1 = I - SKIP by omega]
  have h2 := List.range'_append_1 0 SKIP (I - SKIP)
  rw [show (0 : Nat) + SKIP = SKIP by omega] at h2
  rw [h2, show I - SKIP + SKIP = I by omega]

/-- With the checkpoint guard passed and `SKIP < I`, the run is the loop
started at the first non-skipped batch index `SKIP`. -/
theorem retrieveRun_reaches_first (env : Nat → BatchEnv)
    (N SKIP BATCH : Nat) (h : SKIP < numBatches N BATCH) :
    retrieveRun false false env N SKIP BATCH =
      runLoop env SKIP
        (SKIP :: List.range' (SKIP + 1) (numBatches N BATCH - SKIP - 1))
        initResult := by
  unfold retrieveRun
  rw [if_neg (by simp)]
  rw [range_split_at SKIP _ h]
  exact runLoop_skip_all env SKIP _ _ initResult
    (fun i hi => List.mem_range.mp hi)

/-- C6: if either checkpoint snapshot file already exists the pipeline
fails before submitting any batch — no POST is made and neither file is
written; if neither exists, the run proceeds into the batch loop. -/
theorem checkpoint_overwrite_guard (e1 e2 : Bool) (env : Nat → BatchEnv)
    (N SKIP BATCH : Nat) :
    ((e1 = true ∨ e2 = true) →
      retrieveRun e1 e2 env N SKIP BATCH =
        { initResult with error := some RunError.checkpointExists }) ∧
    (e1 = false → e2 = false →
      retrieveRun e1 e2 env N SKIP BATCH =
        runLoop env SKIP (List.range (numBatches N BATCH)) initResult) := by
  constructor
  · intro h
    unfold retrieveRun
    rcases h with h | h <;> rw [h] <;> simp
  · intro h1 h2
    subst h1
    subst h2
    rfl

theorem checkpoint_overwrite_guard_witness :
    retrieveRun true false (fun _ => ⟨true, true, some 1, []⟩) 5 0 2 =
      { initResult with error := some RunError.checkpointExists } :=
  (checkpoint_overwrite_guard true false (fun _ => ⟨true, true, some 1, []⟩)
    5 0 2).1 (Or.inl rfl)

/-- C8: at the first processed batch, a non-success status from the
confirmation POST aborts the run with no submission POST for that batch
and no POST to any later batch; a non-success status from the submission
POST aborts likewise; and a success response in which no request-number
token is found aborts with a fatal parse error.  In each case the
returned trace shows exactly one attempt (no retry) and nothing beyond
the failing step. -/
theorem submission_failure_fatal (env : Nat → BatchEnv)
    (N SKIP BATCH : Nat) (h : SKIP < numBatches N BATCH) :
    ((env SKIP).prepare_ok = false →
      retrieveRun false false env N SKIP BATCH =
        { initResult with
            error := some (RunError.prepareFailed SKIP),
            confirmationPosts := [SKIP] }) ∧
    ((env SKIP).prepare_ok = true → (env SKIP).confirmation_ok = false →
      retrieveRun false false env N SKIP BATCH =
        { initResult with
            error := some (RunError.confirmationFailed SKIP),
            confirmationPosts := [SKIP], submissionPosts := [SKIP] }) ∧
    ((env SKIP).prepare_ok = true → (env SKIP).confirmation_ok = true →
      (env SKIP).parsedRequestNumber = none →
      retrieveRun false false env N SKIP BATCH =
        { initResult with
            error := some (RunError.parseFailed SKIP),
            confirmationPosts := [SKIP], submissionPosts := [SKIP] }) := by
  refine ⟨?_, ?_, ?_⟩
  · intro hp
    rw [retrieveRun_reaches_first env N SKIP BATCH h]
    simp only [runLoop]
    rw [if_neg (lt_irrefl SKIP)]
    simp [hp, initResult]
  · intro hp hc
    rw [retrieveRun_reaches_first env N SKIP BATCH h]
    simp only [runLoop]
    rw [if_neg (lt_irrefl SKIP)]
    simp [hp, hc, initResult]
  · intro hp hc hr
    rw [retrieveRun_reaches_first env N SKIP BATCH h]
    simp only [runLoop]
    rw [if_neg (lt_irrefl SKIP)]
    simp [hp, hc, hr, initResult]

theorem submission_failure_fatal_witness :
    retrieveRun false false (fun _ => ⟨false, true, some 3, []⟩) 5 0 2 =
      { initResult with
          error := some (RunError.prepareFailed 0),
          confirmationPosts := [0] } :=
  (submission_failure_fatal (fun _ => ⟨false, true, some 3, []⟩) 5 0 2
    (by decide)).1 rfl

/-- C10: the name `request_number` is bound nowhere in the script, so in
any run that passes the guard and processes at least one batch whose two
POSTs succeed and whose request number parses, execution fails with the
unbound-name error right after the request-number snapshot write of that
first processed batch: the completion poller is never reached, no path
is accumulated, and the path snapshot file is never written. -/
theorem unbound_request_number_aborts (env : Nat → BatchEnv)
    (N SKIP BATCH rn : Nat) (h : SKIP < numBatches N BATCH)
    (hp : (env SKIP).prepare_ok = true)
    (hc : (env SKIP).confirmation_ok = true)
    (hr : (env SKIP).parsedRequestNumber = some rn) :
    retrieveRun false false env N SKIP BATCH =
      { initResult with
          error := some (RunError.unboundRequestNumber SKIP),
          confirmationPosts := [SKIP], submissionPosts := [SKIP],
          request_numbers := [rn], rnFileWrites := [[rn]] } := by
  rw [retrieveRun_reaches_first env N SKIP BATCH h]
  simp only [runLoop]
  rw [if_neg (lt_irrefl SKIP)]
  simp [hp, hc, hr, request_number_binding, initResult]

theorem unbound_request_number_aborts_witness :
    retrieveRun false false (fun _ => ⟨true, true, some 42, []⟩) 5 0 2 =
      { initResult with
          error := some (RunError.unboundRequestNumber 0),
          confirmationPosts := [0], submissionPosts := [0],
          request_numbers := [42], rnFileWrites := [[42]] } :=
  unbound_request_number_aborts (fun _ => ⟨true, true, some 42, []⟩)
    5 0 2 42 (by decide) rfl rfl rfl

end Orchestra
